import Mathlib

/-!
Shallow embedding of the HVAC building-energy model and calibration engine
(`backend/app/models/building_energy_model.py`, `backend/app/calibration.py`,
`backend/app/schemas/__init__.py`).

Python floats are modelled by `ℚ`; a float that may be NaN is `Option ℚ`
(`none` = NaN).  The two transcendental library calls, `np.exp` and
`np.sqrt`, are kept abstract as explicit function parameters `E` and `S`
(Lean's real exponential and square root are noncomputable); every theorem
below is proved for arbitrary `E`/`S`, with any needed property (for `S`:
monotonicity, `S 0 = 0` — true of the real square root) taken as an explicit
hypothesis.  Fallible Python code (raised exceptions) is modelled with
`Except String`.
-/

namespace HVACModel

/-! ### Data model (dataclasses of building_energy_model.py) -/

/-- Floor specification (`FloorSpec` dataclass). -/
structure FloorSpec where
  floor_area : ℚ
  ceiling_height : ℚ
  wall_u_value : ℚ
  window_area : ℚ
  window_u_value : ℚ
  solar_heat_gain_coef : ℚ
deriving DecidableEq

/-- Equipment specification (`EquipmentSpec` dataclass). -/
structure EquipmentSpec where
  lighting_power_density : ℚ
  oa_equipment_power_density : ℚ
  central_ahu_capacity : ℚ
  central_ahu_fan_power : ℚ
  central_chiller_capacity : ℚ
  central_chiller_cop : ℚ
  local_ac_capacity : ℚ
  local_ac_cop : ℚ
  local_ac_fan_power : ℚ
deriving DecidableEq

/-- Monthly operating condition (`MonthlyCondition` dataclass).  `month` and
`occupancy` are Python ints, hence `ℤ`. -/
structure MonthlyCondition where
  month : ℤ
  outdoor_temp : ℚ
  outdoor_humidity : ℚ
  indoor_temp_setpoint : ℚ
  indoor_humidity_setpoint : ℚ
  supply_air_temp : ℚ
  occupancy : ℤ
  occupancy_rate : ℚ
  operation_hours : ℚ
deriving DecidableEq

/-! ### PsychrometricCalculator -/

/-- Saturation pressure `611 * exp(17.27*t/(t+237.3))`; `E` stands for
`np.exp`. -/
def saturation_pressure (E : ℚ → ℚ) (temp : ℚ) : ℚ :=
  611 * E (17.27 * temp / (temp + 237.3))

/-- Absolute humidity `0.622*p_v/(101325 - p_v)` with
`p_v = p_sat * rh / 100`. -/
def absolute_humidity (E : ℚ → ℚ) (temp rh : ℚ) : ℚ :=
  let p_sat := saturation_pressure E temp
  let p_v := p_sat * rh / 100
  0.622 * p_v / (101325 - p_v)

/-- Moist-air enthalpy `1.005*t + w*(2501 + 1.846*t)`. -/
def enthalpy (temp abs_humidity : ℚ) : ℚ :=
  1.005 * temp + abs_humidity * (2501 + 1.846 * temp)

/-! ### HeatLoadCalculator -/

/-- Constant `PERSON_SENSIBLE_HEAT` (W per person). -/
def PERSON_SENSIBLE_HEAT : ℚ := 60

/-- Constant `PERSON_LATENT_HEAT` (W per person). -/
def PERSON_LATENT_HEAT : ℚ := 40

/-- Constant `OUTSIDE_AIR_RATE` (m³/h per person). -/
def OUTSIDE_AIR_RATE : ℚ := 30

/-- Monthly solar-radiation lookup `SOLAR_RADIATION_MAP.get(month, 150)`. -/
def solarRadiationMap (m : ℤ) : ℚ :=
  if m = 1 then 120 else if m = 2 then 150 else if m = 3 then 180
  else if m = 4 then 200 else if m = 5 then 220 else if m = 6 then 200
  else if m = 7 then 220 else if m = 8 then 200 else if m = 9 then 180
  else if m = 10 then 150 else if m = 11 then 120 else if m = 12 then 100
  else 150

/-- Result dict of `calculate_sensible_load`. -/
structure SensibleLoad where
  wall : ℚ
  window : ℚ
  solar : ℚ
  lighting : ℚ
  oa_equipment : ℚ
  person : ℚ
  total : ℚ
deriving DecidableEq

/-- Sensible heat load (kW): `HeatLoadCalculator.calculate_sensible_load`.
The exterior wall area is approximated as 40% of the floor area. -/
def calculate_sensible_load (fs : FloorSpec) (condition : MonthlyCondition)
    (es : EquipmentSpec) : SensibleLoad :=
  let temp_diff := condition.outdoor_temp - condition.indoor_temp_setpoint
  let wall_area := fs.floor_area * 0.4
  let wall_load := fs.wall_u_value * wall_area * temp_diff / 1000
  let window_load := fs.window_u_value * fs.window_area * temp_diff / 1000
  let solar_load := fs.window_area * fs.solar_heat_gain_coef *
      solarRadiationMap condition.month / 1000
  let lighting_load := es.lighting_power_density * fs.floor_area *
      condition.occupancy_rate / 1000
  let oa_load := es.oa_equipment_power_density * fs.floor_area *
      condition.occupancy_rate / 1000
  let person_load := PERSON_SENSIBLE_HEAT * (condition.occupancy : ℚ) / 1000
  let total_sensible := wall_load + window_load + solar_load +
      lighting_load + oa_load + person_load
  { wall := wall_load, window := window_load, solar := solar_load,
    lighting := lighting_load, oa_equipment := oa_load,
    person := person_load, total := total_sensible }

/-- Result dict of `calculate_latent_load`. -/
structure LatentLoad where
  person : ℚ
  outdoor_air : ℚ
  total : ℚ
deriving DecidableEq

/-- Raw (pre-floor) outdoor-air latent term of `calculate_latent_load`:
`air_volume * 1.2 * (w_out - w_in) * 2501 / 3600`. -/
def outdoorLatentRaw (E : ℚ → ℚ) (condition : MonthlyCondition) : ℚ :=
  let outdoor_abs_hum :=
    absolute_humidity E condition.outdoor_temp condition.outdoor_humidity
  let indoor_abs_hum :=
    absolute_humidity E condition.indoor_temp_setpoint
      condition.indoor_humidity_setpoint
  let air_volume := OUTSIDE_AIR_RATE * (condition.occupancy : ℚ)
  let air_density : ℚ := 1.2
  let moisture_diff := outdoor_abs_hum - indoor_abs_hum
  let latent_heat_evap : ℚ := 2501
  air_volume * air_density * moisture_diff * latent_heat_evap / 3600

/-- Latent heat load (kW): `HeatLoadCalculator.calculate_latent_load`.  The
outdoor-air term is floored at zero (`max(0, outdoor_latent)`). -/
def calculate_latent_load (E : ℚ → ℚ) (condition : MonthlyCondition) :
    LatentLoad :=
  let person_latent := PERSON_LATENT_HEAT * (condition.occupancy : ℚ) / 1000
  let outdoor_latent := outdoorLatentRaw E condition
  { person := person_latent,
    outdoor_air := max 0 outdoor_latent,
    total := person_latent + max 0 outdoor_latent }

/-! ### HVACSystemModel -/

/-- Result dict of `calculate_central_system_energy`. -/
structure CentralEnergy where
  ahu_fan : ℚ
  chiller : ℚ
  total : ℚ
deriving DecidableEq

/-- Central-system monthly energy (kWh):
`HVACSystemModel.calculate_central_system_energy`. -/
def calculate_central_system_energy (es : EquipmentSpec)
    (sensible_load latent_load : ℚ) (condition : MonthlyCondition) :
    CentralEnergy :=
  let total_load := sensible_load + latent_load
  let ahu_fan_energy := es.central_ahu_fan_power * condition.operation_hours
  let chiller_energy :=
    if total_load > 0 then
      total_load * condition.operation_hours / es.central_chiller_cop
    else
      |total_load| * condition.operation_hours / es.central_chiller_cop
  { ahu_fan := ahu_fan_energy, chiller := chiller_energy,
    total := ahu_fan_energy + chiller_energy }

/-- Result dict of `calculate_local_system_energy`. -/
structure LocalEnergy where
  fan : ℚ
  compressor : ℚ
  total : ℚ
deriving DecidableEq

/-- Local-system monthly energy (kWh):
`HVACSystemModel.calculate_local_system_energy`. -/
def calculate_local_system_energy (es : EquipmentSpec)
    (sensible_load latent_load : ℚ) (condition : MonthlyCondition) :
    LocalEnergy :=
  let total_load := sensible_load + latent_load
  let fan_energy := es.local_ac_fan_power * condition.operation_hours
  let compressor_energy :=
    if total_load > 0 then
      total_load * condition.operation_hours / es.local_ac_cop
    else
      |total_load| * condition.operation_hours / es.local_ac_cop
  { fan := fan_energy, compressor := compressor_energy,
    total := fan_energy + compressor_energy }

/-! ### BuildingEnergyModel.simulate_year -/

/-- One row of the DataFrame built by `BuildingEnergyModel.simulate_year`. -/
structure MonthlyResult where
  month : ℤ
  outdoor_temp : ℚ
  indoor_temp : ℚ
  occupancy : ℤ
  occupancy_rate : ℚ
  load_wall_kW : ℚ
  load_window_kW : ℚ
  load_solar_kW : ℚ
  load_lighting_kW : ℚ
  load_oa_equipment_kW : ℚ
  load_person_sensible_kW : ℚ
  load_person_latent_kW : ℚ
  load_outdoor_air_latent_kW : ℚ
  sensible_load_kW : ℚ
  latent_load_kW : ℚ
  total_load_kW : ℚ
  shf : ℚ
  central_ahu_fan_kWh : ℚ
  central_chiller_kWh : ℚ
  central_total_kWh : ℚ
  local_fan_kWh : ℚ
  local_compressor_kWh : ℚ
  local_total_kWh : ℚ
  lighting_kWh : ℚ
  oa_equipment_kWh : ℚ
  outdoor_enthalpy : ℚ
  indoor_enthalpy : ℚ
deriving DecidableEq

/-- The row `simulate_year` appends for one `MonthlyCondition`. -/
def simulateRow (E : ℚ → ℚ) (fs : FloorSpec) (es : EquipmentSpec)
    (condition : MonthlyCondition) : MonthlyResult :=
  let sensible := calculate_sensible_load fs condition es
  let latent := calculate_latent_load E condition
  let central_energy :=
    calculate_central_system_energy es sensible.total latent.total condition
  let local_energy :=
    calculate_local_system_energy es sensible.total latent.total condition
  let lighting_energy := es.lighting_power_density * fs.floor_area *
      condition.occupancy_rate * condition.operation_hours / 1000
  let oa_equipment_energy := es.oa_equipment_power_density * fs.floor_area *
      condition.occupancy_rate * condition.operation_hours / 1000
  let outdoor_enthalpy := enthalpy condition.outdoor_temp
      (absolute_humidity E condition.outdoor_temp condition.outdoor_humidity)
  let indoor_enthalpy := enthalpy condition.indoor_temp_setpoint
      (absolute_humidity E condition.indoor_temp_setpoint
        condition.indoor_humidity_setpoint)
  let total_load := sensible.total + latent.total
  let shf := if total_load ≠ 0 then sensible.total / total_load else 0
  { month := condition.month,
    outdoor_temp := condition.outdoor_temp,
    indoor_temp := condition.indoor_temp_setpoint,
    occupancy := condition.occupancy,
    occupancy_rate := condition.occupancy_rate,
    load_wall_kW := sensible.wall,
    load_window_kW := sensible.window,
    load_solar_kW := sensible.solar,
    load_lighting_kW := sensible.lighting,
    load_oa_equipment_kW := sensible.oa_equipment,
    load_person_sensible_kW := sensible.person,
    load_person_latent_kW := latent.person,
    load_outdoor_air_latent_kW := latent.outdoor_air,
    sensible_load_kW := sensible.total,
    latent_load_kW := latent.total,
    total_load_kW := total_load,
    shf := shf,
    central_ahu_fan_kWh := central_energy.ahu_fan,
    central_chiller_kWh := central_energy.chiller,
    central_total_kWh := central_energy.total,
    local_fan_kWh := local_energy.fan,
    local_compressor_kWh := local_energy.compressor,
    local_total_kWh := local_energy.total,
    lighting_kWh := lighting_energy,
    oa_equipment_kWh := oa_equipment_energy,
    outdoor_enthalpy := outdoor_enthalpy,
    indoor_enthalpy := indoor_enthalpy }

/-- Annual simulation `BuildingEnergyModel.simulate_year`: one result row per
input condition, in input order. -/
def simulate_year (E : ℚ → ℚ) (fs : FloorSpec) (es : EquipmentSpec)
    (monthly_conditions : List MonthlyCondition) : List MonthlyResult :=
  monthly_conditions.map (simulateRow E fs es)

/-! ### Schemas used by calibration.py (schemas/__init__.py) -/

/-- One actual monthly data record (`ActualDataSchema`).  `Optional[float]`
fields are `Option ℚ` (`none` = absent). -/
structure ActualData where
  month : ℤ
  central_total_kWh : Option ℚ := none
  local_total_kWh : Option ℚ := none
  total_kWh : Option ℚ := none
deriving DecidableEq

/-- The comparison target column.  `ActualDataSchema` carries exactly these
three attributes, and any other string passed as `comparison_target` would
make `getattr` raise before a single value is paired, so the target is
modelled as this three-valued type. -/
inductive CompTarget where
  | central_total_kWh
  | local_total_kWh
  | total_kWh
deriving DecidableEq

/-- The `getattr(data, comparison_target)` read of an actual record. -/
def targetValue (d : ActualData) : CompTarget → Option ℚ
  | .central_total_kWh => d.central_total_kWh
  | .local_total_kWh => d.local_total_kWh
  | .total_kWh => d.total_kWh

/-- The simulated value read from a result row: the `total_kWh` target sums
the central and local totals, the other targets read their own column. -/
def simValue (r : MonthlyResult) : CompTarget → ℚ
  | .central_total_kWh => r.central_total_kWh
  | .local_total_kWh => r.local_total_kWh
  | .total_kWh => r.central_total_kWh + r.local_total_kWh

/-- `ComparisonMetrics` schema. -/
structure ComparisonMetrics where
  rmse : ℚ
  mae : ℚ
  mape : ℚ
  r_squared : ℚ
  max_error : ℚ
  max_error_month : ℤ
deriving DecidableEq

/-- `ParameterRange` schema: dotted target path, bounds, optional step and a
step count (default 10).  The schema itself carries no validation. -/
structure ParameterRange where
  parameter_name : String
  min_value : ℚ
  max_value : ℚ
  step : Option ℚ := none
  num_steps : ℕ := 10
deriving DecidableEq

/-! ### calculate_metrics (calibration.py) -/

/-- Arithmetic mean `np.mean` of a list (callers guard against the empty
list, on which numpy would return NaN). -/
def mean (l : List ℚ) : ℚ := l.sum / (l.length : ℚ)

/-- The NaN mask `~(np.isnan(sim) | np.isnan(act))`, one Boolean per common
index. -/
def keepMask (sim act : List (Option ℚ)) : List Bool :=
  List.zipWith (fun s a => s.isSome && a.isSome) sim act

/-- Boolean-mask indexing `arr[mask]`: keeps the entries at `true`
positions. -/
def maskFilter (xs : List (Option ℚ)) (m : List Bool) : List ℚ :=
  (xs.zip m).filterMap fun p => if p.2 then p.1 else none

/-- The filtered simulated array `sim_array[mask]`. -/
def filteredSim (sim act : List (Option ℚ)) : List ℚ :=
  maskFilter sim (keepMask sim act)

/-- The filtered actual array `act_array[mask]`. -/
def filteredAct (sim act : List (Option ℚ)) : List ℚ :=
  maskFilter act (keepMask sim act)

/-- Maximum of a list of rationals, 0 on the empty list (only used on
non-empty lists, mirroring `np.argmax`). -/
def listMax : List ℚ → ℚ
  | [] => 0
  | x :: xs => max x (listMax xs)

/-- First index attaining the maximum (`np.argmax`). -/
def argmaxIdx : List ℚ → ℕ
  | [] => 0
  | [_] => 0
  | x :: y :: rest =>
    if x < listMax (y :: rest) then argmaxIdx (y :: rest) + 1 else 0

/-- The positionally paired (error, actual) entries whose actual value is
nonzero (`mape_mask = act_array != 0`). -/
def mapePairs (errors actArr : List ℚ) : List (ℚ × ℚ) :=
  (errors.zip actArr).filter fun p => decide (p.2 ≠ 0)

/-- The MAPE value: mean of `|error/actual|*100` over the pairs whose actual
value is nonzero, and 0 when no such pair exists. -/
def mapeOf (errors actArr : List ℚ) : ℚ :=
  if (mapePairs errors actArr).length = 0 then 0
  else mean ((mapePairs errors actArr).map fun p => |p.1 / p.2| * 100)

/-- The total sum of squares `np.sum((act - np.mean(act))**2)`. -/
def ssTotOf (actArr : List ℚ) : ℚ :=
  (actArr.map fun a => (a - mean actArr) ^ 2).sum

/-- The R² value: `1 - ss_res/ss_tot`, and 0 when `ss_tot = 0`. -/
def rSquaredOf (errors actArr : List ℚ) : ℚ :=
  let ss_res := (errors.map fun e => e ^ 2).sum
  if ssTotOf actArr ≠ 0 then 1 - ss_res / ssTotOf actArr else 0

/-- The elementwise error array `sim_array - act_array`. -/
def errorsOf (simArr actArr : List ℚ) : List ℚ :=
  List.zipWith (fun s a => s - a) simArr actArr

/-- The elementwise absolute error array `np.abs(errors)`. -/
def absErrorsOf (simArr actArr : List ℚ) : List ℚ :=
  (errorsOf simArr actArr).map fun e => |e|

/-- The metrics record computed from the already-filtered arrays; `S` stands
for `np.sqrt`. -/
def metricsOf (S : ℚ → ℚ) (simArr actArr : List ℚ) : ComparisonMetrics :=
  { rmse := S (mean ((errorsOf simArr actArr).map fun e => e ^ 2))
    mae := mean (absErrorsOf simArr actArr)
    mape := mapeOf (errorsOf simArr actArr) actArr
    r_squared := rSquaredOf (errorsOf simArr actArr) actArr
    max_error :=
      (absErrorsOf simArr actArr).getD (argmaxIdx (absErrorsOf simArr actArr)) 0
    max_error_month := (argmaxIdx (absErrorsOf simArr actArr) : ℤ) + 1 }

/-- `calculate_metrics`: filter out pairs whose simulated or actual entry is
NaN, raise `ValueError` when nothing is left, otherwise compute the
metrics. -/
def calculate_metrics (S : ℚ → ℚ) (simulated actual : List (Option ℚ)) :
    Except String ComparisonMetrics :=
  if (filteredSim simulated actual).length = 0 then
    .error "No valid data points for comparison"
  else
    .ok (metricsOf S (filteredSim simulated actual)
      (filteredAct simulated actual))

/-! ### run_simulation_with_params -/

/-- The declared field names of `FloorSpec`. -/
def floorFieldNames : List String :=
  ["floor_area", "ceiling_height", "wall_u_value", "window_area",
   "window_u_value", "solar_heat_gain_coef"]

/-- The declared field names of `EquipmentSpec`. -/
def equipmentFieldNames : List String :=
  ["lighting_power_density", "oa_equipment_power_density",
   "central_ahu_capacity", "central_ahu_fan_power",
   "central_chiller_capacity", "central_chiller_cop",
   "local_ac_capacity", "local_ac_cop", "local_ac_fan_power"]

/-- `setattr(floor, field, v)`.  On a non-slots dataclass, `setattr` with a
name that is not a declared field silently creates a new attribute that no
computation ever reads; since the declared fields are untouched, that case is
the identity on the modelled state. -/
def setFloorField (fs : FloorSpec) (field : String) (v : ℚ) : FloorSpec :=
  if field = "floor_area" then { fs with floor_area := v }
  else if field = "ceiling_height" then { fs with ceiling_height := v }
  else if field = "wall_u_value" then { fs with wall_u_value := v }
  else if field = "window_area" then { fs with window_area := v }
  else if field = "window_u_value" then { fs with window_u_value := v }
  else if field = "solar_heat_gain_coef" then
    { fs with solar_heat_gain_coef := v }
  else fs

/-- `setattr(equipment, field, v)`; same unknown-field convention as
`setFloorField`. -/
def setEquipmentField (es : EquipmentSpec) (field : String) (v : ℚ) :
    EquipmentSpec :=
  if field = "lighting_power_density" then
    { es with lighting_power_density := v }
  else if field = "oa_equipment_power_density" then
    { es with oa_equipment_power_density := v }
  else if field = "central_ahu_capacity" then
    { es with central_ahu_capacity := v }
  else if field = "central_ahu_fan_power" then
    { es with central_ahu_fan_power := v }
  else if field = "central_chiller_capacity" then
    { es with central_chiller_capacity := v }
  else if field = "central_chiller_cop" then
    { es with central_chiller_cop := v }
  else if field = "local_ac_capacity" then { es with local_ac_capacity := v }
  else if field = "local_ac_cop" then { es with local_ac_cop := v }
  else if field = "local_ac_fan_power" then
    { es with local_ac_fan_power := v }
  else es

/-- Helper for `splitDot`: splits a character list at every separator,
accumulating the current piece in reverse. -/
def splitDotAux (sep : Char) : List Char → List Char → List String
  | [], acc => [String.mk acc.reverse]
  | c :: cs, acc =>
    if c = sep then String.mk acc.reverse :: splitDotAux sep cs []
    else splitDotAux sep cs (c :: acc)

/-- Python's `param_name.split('.')`: the (always non-empty) list of
dot-separated pieces. -/
def splitDot (s : String) : List String := splitDotAux '.' s.data []

/-- One iteration of the parameter loop in `run_simulation_with_params`:
`parts = param_name.split('.')`, dispatch on `parts[0]`; `parts[1]` on a
dot-free name raises `IndexError`; an unrecognised `parts[0]` is silently
skipped (the `if/elif` has no `else`). -/
def applyParam (fs : FloorSpec) (es : EquipmentSpec) (name : String)
    (v : ℚ) : Except String (FloorSpec × EquipmentSpec) :=
  match splitDot name with
  | "floor_spec" :: rest =>
    match rest with
    | f :: _ => .ok (setFloorField fs f v, es)
    | [] => .error "list index out of range"
  | "equipment_spec" :: rest =>
    match rest with
    | f :: _ => .ok (fs, setEquipmentField es f v)
    | [] => .error "list index out of range"
  | _ => .ok (fs, es)

/-- The whole parameter-application loop (dict iteration in insertion
order). -/
def applyParameters (fs : FloorSpec) (es : EquipmentSpec) :
    List (String × ℚ) → Except String (FloorSpec × EquipmentSpec)
  | [] => .ok (fs, es)
  | (n, v) :: rest =>
    match applyParam fs es n v with
    | .error e => .error e
    | .ok (fs', es') => applyParameters fs' es' rest

/-- `run_simulation_with_params`: apply the overrides to (copies of) the
specs, then run `simulate_year`. -/
def run_simulation_with_params (E : ℚ → ℚ) (fs : FloorSpec)
    (es : EquipmentSpec) (monthly_conditions : List MonthlyCondition)
    (parameters : List (String × ℚ)) : Except String (List MonthlyResult) :=
  match applyParameters fs es parameters with
  | .error e => .error e
  | .ok (floor, equipment) =>
    .ok (simulate_year E floor equipment monthly_conditions)

/-! ### extract_comparison_values -/

/-- The pandas `IndexError` message for a positional index that is out of
bounds. -/
def ilocErrMsg : String := "single positional indexer is out-of-bounds"

/-- `results_df.iloc[i]` with pandas semantics: indices `0 ≤ i < n` count
from the front, `-n ≤ i < 0` count from the back, anything else raises. -/
def ilocRow (rows : List MonthlyResult) (i : ℤ) :
    Except String MonthlyResult :=
  if h : 0 ≤ i ∧ i < (rows.length : ℤ) then
    .ok (rows.get ⟨i.toNat, by omega⟩)
  else if h2 : -(rows.length : ℤ) ≤ i ∧ i < 0 then
    .ok (rows.get ⟨((rows.length : ℤ) + i).toNat, by omega⟩)
  else .error ilocErrMsg

/-- `extract_comparison_values`: for each actual record, skip it when the
target attribute is `None`, otherwise pair the actual value with the
simulation row at position `month - 1`. -/
def extract_comparison_values (rows : List MonthlyResult) :
    List ActualData → CompTarget → Except String (List ℚ × List ℚ)
  | [], _ => .ok ([], [])
  | d :: rest, tgt =>
    match targetValue d tgt with
    | none => extract_comparison_values rows rest tgt
    | some actual_value =>
      match ilocRow rows (d.month - 1) with
      | .error e => .error e
      | .ok row =>
        match extract_comparison_values rows rest tgt with
        | .error e => .error e
        | .ok (simulated, actual) =>
          .ok (simValue row tgt :: simulated, actual_value :: actual)

/-! ### grid_search_calibration -/

/-- `np.linspace(a, b, n)`: `n` evenly spaced values from `a` to `b`
inclusive. -/
def linspaceQ (a b : ℚ) (n : ℕ) : List ℚ :=
  if n = 0 then []
  else if n = 1 then [a]
  else (List.range n).map fun i : ℕ => a + (i : ℚ) * (b - a) / ((n : ℚ) - 1)

/-- `np.arange(start, stop, step)`: `start + k*step` for
`0 ≤ k < ⌈(stop-start)/step⌉` (empty for `step = 0`, where numpy raises). -/
def arangeQ (start stop step : ℚ) : List ℚ :=
  if step = 0 then []
  else
    (List.range (max 0 ⌈(stop - start) / step⌉).toNat).map
      fun k : ℕ => start + (k : ℚ) * step

/-- The candidate-value grid of one `ParameterRange`: `arange` up to
`max_value + step/2` when a step is given, else `linspace` with `num_steps`
points. -/
def gridValues (pr : ParameterRange) : List ℚ :=
  match pr.step with
  | some st => arangeQ pr.min_value (pr.max_value + st / 2) st
  | none => linspaceQ pr.min_value pr.max_value pr.num_steps

/-- `itertools.product`: Cartesian product of the per-parameter grids, the
rightmost factor varying fastest. -/
def cartesianProduct : List (List ℚ) → List (List ℚ)
  | [] => [[]]
  | g :: gs =>
    (g.map fun v => (cartesianProduct gs).map fun c => v :: c).flatten

/-- One entry of the grid-search result list. -/
structure CalResult where
  parameters : List (String × ℚ)
  metrics : ComparisonMetrics
  simulation_results : List MonthlyResult
deriving DecidableEq

/-- Ordering of calibration results by their RMSE
(`results.sort(key=lambda x: x['metrics'].rmse)`). -/
def rmseLE (a b : CalResult) : Prop := a.metrics.rmse ≤ b.metrics.rmse

instance : DecidableRel rmseLE :=
  fun a b => inferInstanceAs (Decidable (a.metrics.rmse ≤ b.metrics.rmse))

instance : IsTotal CalResult rmseLE :=
  ⟨fun a b => le_total a.metrics.rmse b.metrics.rmse⟩

instance : IsTrans CalResult rmseLE :=
  ⟨fun _ _ _ hab hbc => le_trans hab hbc⟩

/-- Left-to-right effectful map over `Except` (the Python `for` loop whose
body may raise): the first error aborts the remainder. -/
def mapExcept (f : α → Except String β) : List α → Except String (List β)
  | [] => .ok []
  | x :: xs =>
    match f x with
    | .error e => .error e
    | .ok y =>
      match mapExcept f xs with
      | .error e => .error e
      | .ok ys => .ok (y :: ys)

/-- The body of the grid-search loop: simulate with one parameter
combination, extract the comparison series, and score them. -/
def evalCombination (E S : ℚ → ℚ) (fs : FloorSpec) (es : EquipmentSpec)
    (conds : List MonthlyCondition) (actual_data : List ActualData)
    (tgt : CompTarget) (param_names : List String) (combo : List ℚ) :
    Except String CalResult :=
  match run_simulation_with_params E fs es conds (param_names.zip combo) with
  | .error e => .error e
  | .ok rows =>
    match extract_comparison_values rows actual_data tgt with
    | .error e => .error e
    | .ok (simulated, actual) =>
      match calculate_metrics S (simulated.map some) (actual.map some) with
      | .error e => .error e
      | .ok m =>
        .ok { parameters := param_names.zip combo, metrics := m,
              simulation_results := rows }

/-- `grid_search_calibration`.  `sampler` stands for
`random.sample(combinations, max_combinations)` (process-global randomness),
only consulted when the combination space exceeds the cap.  The Python
`param_grids` dict is modelled as the list of ranges directly; duplicate
parameter names (where the dict would keep only the last range) are not
collapsed.  Results are returned sorted ascending by RMSE; `list.sort` is
modelled by insertion sort on the `rmse` key. -/
def grid_search_calibration (E S : ℚ → ℚ)
    (sampler : List (List ℚ) → ℕ → List (List ℚ)) (fs : FloorSpec)
    (es : EquipmentSpec) (conds : List MonthlyCondition)
    (actual_data : List ActualData) (tgt : CompTarget)
    (parameter_ranges : List ParameterRange) (max_combinations : ℕ := 1000) :
    Except String (List CalResult) :=
  let param_names := parameter_ranges.map (·.parameter_name)
  let combos := cartesianProduct (parameter_ranges.map gridValues)
  let combos :=
    if max_combinations < combos.length then sampler combos max_combinations
    else combos
  match mapExcept
      (evalCombination E S fs es conds actual_data tgt param_names) combos with
  | .error e => .error e
  | .ok results => .ok (List.insertionSort rmseLE results)

/-! ### optimize_calibration objective -/

/-- The full metric pipeline of one optimization trial: simulate, extract,
score. -/
def trial_metrics (E S : ℚ → ℚ) (fs : FloorSpec) (es : EquipmentSpec)
    (conds : List MonthlyCondition) (actual_data : List ActualData)
    (tgt : CompTarget) (param_names : List String) (x : List ℚ) :
    Except String ComparisonMetrics :=
  match run_simulation_with_params E fs es conds (param_names.zip x) with
  | .error e => .error e
  | .ok rows =>
    match extract_comparison_values rows actual_data tgt with
    | .error e => .error e
    | .ok (simulated, actual) =>
      calculate_metrics S (simulated.map some) (actual.map some)

/-- The `objective_function` inside `optimize_calibration`: the trial's RMSE,
or the penalty `1e10` when anything in the trial raises (the history append
does not affect the returned value and is not modelled). -/
def objective_function (E S : ℚ → ℚ) (fs : FloorSpec) (es : EquipmentSpec)
    (conds : List MonthlyCondition) (actual_data : List ActualData)
    (tgt : CompTarget) (param_names : List String) (x : List ℚ) : ℚ :=
  match trial_metrics E S fs es conds actual_data tgt param_names x with
  | .ok m => m.rmse
  | .error _ => (10 : ℚ) ^ 10

/-! ### Concrete stand-ins and demo inputs for closed evaluations -/

/-- Concrete stand-in for the abstract exponential parameter `E` in closed
statements whose conclusion does not depend on `E`. -/
def expStub : ℚ → ℚ := fun _ => 1

/-- Concrete stand-in for the abstract square-root parameter `S`: the
identity, which satisfies the only properties ever assumed of `S`
(monotonicity and mapping 0 to 0). -/
def sqrtStub : ℚ → ℚ := fun q => q

/-- Concrete stand-in for the random sampler of `grid_search_calibration`
(never consulted below the combination cap). -/
def samplerStub : List (List ℚ) → ℕ → List (List ℚ) := fun l _ => l

/-- Demo floor specification (values of the spec's worked scenario). -/
def fsDemo : FloorSpec :=
  { floor_area := 1000, ceiling_height := 3, wall_u_value := 0.5,
    window_area := 150, window_u_value := 1.5, solar_heat_gain_coef := 0.4 }

/-- Demo equipment specification with positive COPs. -/
def esDemo : EquipmentSpec :=
  { lighting_power_density := 12, oa_equipment_power_density := 15,
    central_ahu_capacity := 500, central_ahu_fan_power := 7.5,
    central_chiller_capacity := 600, central_chiller_cop := 4.5,
    local_ac_capacity := 400, local_ac_cop := 4, local_ac_fan_power := 5 }

/-- Demo summer operating condition. -/
def condDemo : MonthlyCondition :=
  { month := 1, outdoor_temp := 25, outdoor_humidity := 60,
    indoor_temp_setpoint := 26, indoor_humidity_setpoint := 50,
    supply_air_temp := 16, occupancy := 50, occupancy_rate := 0.7,
    operation_hours := 200 }

/-- Winter condition with the building unoccupied: all inputs are inside the
physically valid ranges (temperatures in [-30,50] °C, humidities in
[0,100] %), yet the conduction losses make the sensible load negative. -/
def condWinter : MonthlyCondition :=
  { month := 1, outdoor_temp := -30, outdoor_humidity := 80,
    indoor_temp_setpoint := 26, indoor_humidity_setpoint := 50,
    supply_air_temp := 16, occupancy := 0, occupancy_rate := 0,
    operation_hours := 200 }

/-- Demo actual-data record for month 1. -/
def adDemo : ActualData := { month := 1, total_kWh := some 5000 }

/-- Actual-data record whose month (5) exceeds the number of simulated rows
in the demos. -/
def adBadMonth : ActualData := { month := 5, total_kWh := some 100 }

/-- A `ParameterRange` violating the spec's invariant `min ≤ max`
(min_value 5 > max_value 1), with a declared step count and no explicit
step. -/
def invalidRange : ParameterRange :=
  { parameter_name := "floor_spec.wall_u_value", min_value := 5,
    max_value := 1, num_steps := 2 }

/-- A valid demo `ParameterRange` (min 1 ≤ max 2, no explicit step, two
steps). -/
def validRange : ParameterRange :=
  { parameter_name := "floor_spec.wall_u_value", min_value := 1,
    max_value := 2, num_steps := 2 }

/-- Two demo simulation result rows (months as produced by the demo
conditions). -/
def rowsDemo : List MonthlyResult :=
  simulate_year expStub fsDemo esDemo [condDemo, condWinter]

/-- Actual-data record with the out-of-range month 0. -/
def adMonthZero : ActualData := { month := 0, total_kWh := some 400 }

/-- Physical-validity side conditions on an equipment spec: non-negative
power densities and fan powers, strictly positive COPs. -/
def NonnegEquip (es : EquipmentSpec) : Prop :=
  0 ≤ es.lighting_power_density ∧ 0 ≤ es.oa_equipment_power_density ∧
  0 ≤ es.central_ahu_fan_power ∧ 0 < es.central_chiller_cop ∧
  0 ≤ es.local_ac_fan_power ∧ 0 < es.local_ac_cop

instance (es : EquipmentSpec) : Decidable (NonnegEquip es) := by
  unfold NonnegEquip; infer_instance

/-- Physical-validity side conditions on a monthly condition: non-negative
occupancy, occupancy rate and operation hours. -/
def NonnegCond (c : MonthlyCondition) : Prop :=
  0 ≤ c.occupancy ∧ 0 ≤ c.occupancy_rate ∧ 0 ≤ c.operation_hours

instance (c : MonthlyCondition) : Decidable (NonnegCond c) := by
  unfold NonnegCond; infer_instance

/-! ## Theorems -/

/-! ### Claim C6: HVAC energy formulas -/

/-- Claim C6 (confirmed).  For every month, the central system satisfies
fan energy = `central_ahu_fan_power * operation_hours`, chiller energy =
`|sensible + latent| * operation_hours / central_chiller_cop` regardless of
the sign of the combined load, and total = fan + chiller; the local system
satisfies the same equations with the local fan power and local COP. -/
theorem c6_hvac_energy_formulas (es : EquipmentSpec) (s l : ℚ)
    (c : MonthlyCondition) :
    (calculate_central_system_energy es s l c).ahu_fan
        = es.central_ahu_fan_power * c.operation_hours
    ∧ (calculate_central_system_energy es s l c).chiller
        = |s + l| * c.operation_hours / es.central_chiller_cop
    ∧ (calculate_central_system_energy es s l c).total
        = (calculate_central_system_energy es s l c).ahu_fan
          + (calculate_central_system_energy es s l c).chiller
    ∧ (calculate_local_system_energy es s l c).fan
        = es.local_ac_fan_power * c.operation_hours
    ∧ (calculate_local_system_energy es s l c).compressor
        = |s + l| * c.operation_hours / es.local_ac_cop
    ∧ (calculate_local_system_energy es s l c).total
        = (calculate_local_system_energy es s l c).fan
          + (calculate_local_system_energy es s l c).compressor := by
  unfold calculate_central_system_energy calculate_local_system_energy
  by_cases h : s + l > 0
  · simp [if_pos h, abs_of_pos h]
  · simp [if_neg h]

/-! ### Claim C9: latent-load floor -/

/-- Claim C9 (confirmed).  For every monthly condition, the outdoor-air
latent term is floored at zero, the total latent load is the occupant latent
term `40 * occupancy / 1000` plus `max 0 (outdoor-air term)`, and in
particular the total latent load is at least the occupant-only latent
term — for every exponential stand-in `E`. -/
theorem c9_latent_floor (E : ℚ → ℚ) (c : MonthlyCondition) :
    (calculate_latent_load E c).outdoor_air = max 0 (outdoorLatentRaw E c)
    ∧ (calculate_latent_load E c).total
        = 40 * (c.occupancy : ℚ) / 1000 + max 0 (outdoorLatentRaw E c)
    ∧ 40 * (c.occupancy : ℚ) / 1000 ≤ (calculate_latent_load E c).total := by
  refine ⟨rfl, rfl, ?_⟩
  exact le_add_of_nonneg_right (le_max_left 0 (outdoorLatentRaw E c))

/-! ### Claim C7: zero valid pairs raise -/

/-- Claim C7 (confirmed).  Whenever the NaN filtering leaves zero valid
pairs, `calculate_metrics` raises the descriptive `ValueError` instead of
returning metrics. -/
theorem c7_no_valid_pairs_error (S : ℚ → ℚ) (sim act : List (Option ℚ))
    (h : filteredSim sim act = []) :
    calculate_metrics S sim act
      = .error "No valid data points for comparison" := by
  unfold calculate_metrics
  rw [h]
  rfl

/-- Witness for C7: a one-point comparison whose simulated value is NaN has
zero valid pairs and is rejected. -/
theorem c7_no_valid_pairs_error_witness :
    calculate_metrics sqrtStub [none] [some 1]
      = .error "No valid data points for comparison" :=
  c7_no_valid_pairs_error sqrtStub [none] [some 1] rfl

/-! ### Claim C5: objective returns penalty on failure -/

/-- Claim C5 (confirmed).  During optimization-based calibration, whenever
the simulation trial for a parameter assignment fails with any modelled
exception, the objective function returns the penalty `1e10` instead of
propagating the failure. -/
theorem c5_objective_penalty (E S : ℚ → ℚ) (fs : FloorSpec)
    (es : EquipmentSpec) (conds : List MonthlyCondition)
    (actual_data : List ActualData) (tgt : CompTarget)
    (param_names : List String) (x : List ℚ) (e : String)
    (h : trial_metrics E S fs es conds actual_data tgt param_names x
          = .error e) :
    objective_function E S fs es conds actual_data tgt param_names x
      = (10 : ℚ) ^ 10 := by
  unfold objective_function
  rw [h]

/-- Witness for C5: with no monthly conditions the simulation produces no
rows, the month-1 actual record makes the extraction raise, and the
objective returns the penalty. -/
theorem c5_objective_penalty_witness :
    objective_function expStub sqrtStub fsDemo esDemo [] [adDemo]
      CompTarget.total_kWh [] [] = (10 : ℚ) ^ 10 :=
  c5_objective_penalty expStub sqrtStub fsDemo esDemo [] [adDemo]
    CompTarget.total_kWh [] [] ilocErrMsg (by
      simp [trial_metrics, run_simulation_with_params, applyParameters,
        simulate_year, extract_comparison_values, targetValue, adDemo,
        ilocRow])

/-! ### Helper lemmas on the NaN mask and filtered arrays -/

theorem keepMask_cons (s a : Option ℚ) (sim act : List (Option ℚ)) :
    keepMask (s :: sim) (a :: act)
      = (s.isSome && a.isSome) :: keepMask sim act := rfl

theorem maskFilter_cons_true_some (v : ℚ) (xs : List (Option ℚ))
    (m : List Bool) :
    maskFilter (some v :: xs) (true :: m) = v :: maskFilter xs m := rfl

theorem maskFilter_cons_true_none (xs : List (Option ℚ)) (m : List Bool) :
    maskFilter (none :: xs) (true :: m) = maskFilter xs m := rfl

theorem maskFilter_cons_false (x : Option ℚ) (xs : List (Option ℚ))
    (m : List Bool) :
    maskFilter (x :: xs) (false :: m) = maskFilter xs m := rfl

theorem maskFilter_self (x : List ℚ) :
    maskFilter (x.map some) (keepMask (x.map some) (x.map some)) = x := by
  induction x with
  | nil => rfl
  | cons a l ih =>
    simp only [List.map_cons, keepMask_cons, Option.isSome_some,
      Bool.and_self, maskFilter_cons_true_some, ih]

/-! ### Claim C2: which pairs are dropped -/

/-- Claim C2 (refuted).  The claim says a pair is dropped only for a
missing/NaN actual value, never for its simulated value; but with
`simulated = [NaN, 2]` and `actual = [1, 6]` the pair with the finite actual
value 1 is dropped (the filtered actual array is `[6]`), and
`calculate_metrics` computes exactly the metrics of the one remaining pair
`(2, 6)`. -/
theorem c2_pair_dropped_by_simulated_nan :
    filteredAct [none, some 2] [some 1, some 6] = [6]
    ∧ calculate_metrics sqrtStub [none, some 2] [some 1, some 6]
        = .ok (metricsOf sqrtStub [2] [6]) :=
  ⟨rfl, rfl⟩

/-- Claim C2 (amended, proved).  The metric computation drops exactly those
index pairs in which either the simulated or the actual value is
missing/NaN: the paired filtered arrays are the pairwise-finite entries of
the zipped input, in order. -/
theorem c2_drops_iff_either_nan (sim act : List (Option ℚ)) :
    (filteredSim sim act).zip (filteredAct sim act)
      = (sim.zip act).filterMap fun p =>
          match p with
          | (some s, some a) => some (s, a)
          | _ => none := by
  unfold filteredSim filteredAct
  induction sim generalizing act with
  | nil => rfl
  | cons s rest ih =>
    cases act with
    | nil => rfl
    | cons a act' =>
      cases s <;> cases a <;>
        simp only [keepMask_cons, Option.isSome_some, Option.isSome_none,
          Bool.and_self, Bool.false_and, Bool.true_and, Bool.and_false,
          maskFilter_cons_true_some, maskFilter_cons_true_none,
          maskFilter_cons_false, List.zip_cons_cons, List.filterMap_cons,
          ih]

/-! ### Helper lemmas for metrics on identical inputs -/

theorem zipWith_sub_self (x : List ℚ) :
    List.zipWith (fun s a => s - a) x x = List.replicate x.length 0 := by
  induction x with
  | nil => rfl
  | cons a l ih => simp [List.replicate_succ, ih]

theorem mean_zero_list (l : List ℚ) (h : ∀ y ∈ l, y = 0) : mean l = 0 := by
  simp [mean, List.sum_eq_zero h]

theorem listMax_replicate_zero (n : ℕ) :
    listMax (List.replicate n (0 : ℚ)) = 0 := by
  induction n with
  | zero => rfl
  | succ m ih => simp [List.replicate_succ, listMax, ih]

theorem argmaxIdx_replicate_zero (n : ℕ) :
    argmaxIdx (List.replicate n (0 : ℚ)) = 0 := by
  cases n with
  | zero => rfl
  | succ m =>
    cases m with
    | zero => rfl
    | succ k =>
      have h : listMax ((0 : ℚ) :: List.replicate k 0) = 0 := by
        simpa [List.replicate_succ] using listMax_replicate_zero (k + 1)
      simp [List.replicate_succ, argmaxIdx, h]

theorem getD_zero_of_all_zero (l : List ℚ) (h : ∀ y ∈ l, y = 0) (i : ℕ) :
    l.getD i 0 = 0 := by
  induction l generalizing i with
  | nil => cases i <;> rfl
  | cons a t ih =>
    cases i with
    | zero => simpa using h a (by simp)
    | succ j =>
      rw [List.getD_cons_succ]
      exact ih (fun y hy => h y (List.mem_cons_of_mem a hy)) j

theorem mapeOf_zero_errors (n : ℕ) (act : List ℚ) :
    mapeOf (List.replicate n 0) act = 0 := by
  by_cases h : (mapePairs (List.replicate n 0) act).length = 0
  · rw [mapeOf, if_pos h]
  · rw [mapeOf, if_neg h]
    refine mean_zero_list _ ?_
    intro y hy
    rcases List.mem_map.mp hy with ⟨⟨p1, p2⟩, hp, rfl⟩
    simp only [mapePairs] at hp
    have hzip := List.of_mem_zip (List.mem_of_mem_filter hp)
    have h1 : p1 = 0 := List.eq_of_mem_replicate hzip.1
    simp [h1]

theorem rSquaredOf_zero_errors (n : ℕ) (act : List ℚ)
    (h : ssTotOf act ≠ 0) : rSquaredOf (List.replicate n 0) act = 1 := by
  unfold rSquaredOf
  rw [if_pos h]
  have hz : ((List.replicate n (0 : ℚ)).map fun e => e ^ 2).sum = 0 := by
    refine List.sum_eq_zero ?_
    intro y hy
    rcases List.mem_map.mp hy with ⟨e, he, rfl⟩
    simp [List.eq_of_mem_replicate he]
  rw [hz, zero_div, sub_zero]

/-! ### Claim C8: metrics of a sequence against itself -/

/-- Claim C8 (confirmed).  For every non-empty sequence `x` with strictly
positive total sum of squares about its mean (positive variance), and every
square-root stand-in `S` with `S 0 = 0` (true of `np.sqrt`), comparing `x`
against itself yields RMSE = MAE = MAPE = max error = 0 and R² = 1 (and the
max-error month is reported as 1). -/
theorem c8_metrics_self (S : ℚ → ℚ) (x : List ℚ) (hS : S 0 = 0)
    (hx : x ≠ []) (hvar : 0 < ssTotOf x) :
    calculate_metrics S (x.map some) (x.map some)
      = .ok { rmse := 0, mae := 0, mape := 0, r_squared := 1,
              max_error := 0, max_error_month := 1 } := by
  have hfs : filteredSim (x.map some) (x.map some) = x := maskFilter_self x
  have hfa : filteredAct (x.map some) (x.map some) = x := maskFilter_self x
  have herr : errorsOf x x = List.replicate x.length 0 := zipWith_sub_self x
  have habs : absErrorsOf x x = List.replicate x.length 0 := by
    unfold absErrorsOf
    rw [herr]
    simp [List.map_replicate]
  have hsq : (List.replicate x.length (0 : ℚ)).map (fun e => e ^ 2)
      = List.replicate x.length 0 := by
    simp [List.map_replicate]
  have hmean : mean (List.replicate x.length (0 : ℚ)) = 0 :=
    mean_zero_list _ (fun y hy => List.eq_of_mem_replicate hy)
  unfold calculate_metrics
  rw [hfs, hfa, if_neg (fun h => hx (List.length_eq_zero.mp h))]
  unfold metricsOf
  rw [herr, habs, hsq, hmean, hS, mapeOf_zero_errors,
    rSquaredOf_zero_errors _ _ (ne_of_gt hvar), argmaxIdx_replicate_zero,
    getD_zero_of_all_zero _ (fun y hy => List.eq_of_mem_replicate hy) 0]
  norm_num

/-- Witness for C8 at `x = [1, 2]` with the identity square-root stand-in
(which maps 0 to 0). -/
theorem c8_metrics_self_witness :
    calculate_metrics sqrtStub ([(1 : ℚ), 2].map some)
        ([(1 : ℚ), 2].map some)
      = .ok { rmse := 0, mae := 0, mape := 0, r_squared := 1,
              max_error := 0, max_error_month := 1 } :=
  c8_metrics_self sqrtStub [1, 2] rfl (by simp)
    (by norm_num [ssTotOf, mean])

/-! ### Helper lemmas for extraction (claim C10) -/

theorem extract_single (rows : List MonthlyResult) (d : ActualData)
    (tgt : CompTarget) (v : ℚ) (hv : targetValue d tgt = some v) :
    extract_comparison_values rows [d] tgt
      = match ilocRow rows (d.month - 1) with
        | .error e => .error e
        | .ok row => .ok ([simValue row tgt], [v]) := by
  cases hiloc : ilocRow rows (d.month - 1) <;>
    simp [extract_comparison_values, hv, hiloc]

theorem ilocRow_nat (rows : List MonthlyResult) (i : ℕ)
    (hi : i < rows.length) : ilocRow rows (i : ℤ) = .ok (rows.get ⟨i, hi⟩) := by
  have hc : 0 ≤ (i : ℤ) ∧ (i : ℤ) < (rows.length : ℤ) :=
    ⟨Int.natCast_nonneg i, by exact_mod_cast hi⟩
  rw [ilocRow, dif_pos hc]
  rfl

theorem ilocRow_oob_high (rows : List MonthlyResult) (i : ℤ)
    (h : (rows.length : ℤ) ≤ i) : ilocRow rows i = .error ilocErrMsg := by
  rw [ilocRow, dif_neg (by omega), dif_neg (by omega)]

theorem ilocRow_neg_one (rows : List MonthlyResult) (hne : rows ≠ []) :
    ilocRow rows (-1) = .ok (rows.getLast hne) := by
  have hlen : 0 < rows.length := List.length_pos.mpr hne
  rw [ilocRow, dif_neg (by omega), dif_pos ⟨by omega, by omega⟩]
  congr 1
  rw [List.getLast_eq_getElem]
  simp only [List.get_eq_getElem]
  congr 1
  omega

/-! ### Claim C10: positional month pairing -/

/-- Claim C10 (confirmed).  When pairing actual data with simulation output,
an actual record with month `m` (and a present target value) is matched to
the simulation row at position `m - 1` purely by position — the rows' own
month fields are arbitrary here and never consulted; a month beyond the
number of rows makes the extraction fail with the out-of-bounds indexer
error; and month 0 silently pairs with the last row (position -1) instead of
failing. -/
theorem c10_positional_pairing (rows : List MonthlyResult) (tgt : CompTarget)
    (d : ActualData) (v : ℚ) (hv : targetValue d tgt = some v) :
    (∀ i : ℕ, (hi : i < rows.length) → d.month = (i : ℤ) + 1 →
      extract_comparison_values rows [d] tgt
        = .ok ([simValue (rows.get ⟨i, hi⟩) tgt], [v]))
    ∧ ((rows.length : ℤ) < d.month →
      extract_comparison_values rows [d] tgt = .error ilocErrMsg)
    ∧ (d.month = 0 → ∀ hne : rows ≠ [],
      extract_comparison_values rows [d] tgt
        = .ok ([simValue (rows.getLast hne) tgt], [v])) := by
  refine ⟨?_, ?_, ?_⟩
  · intro i hi hm
    rw [extract_single rows d tgt v hv]
    have h1 : d.month - 1 = (i : ℤ) := by omega
    rw [h1, ilocRow_nat rows i hi]
  · intro hlt
    rw [extract_single rows d tgt v hv,
      ilocRow_oob_high rows (d.month - 1) (by omega)]
  · intro hm hne
    rw [extract_single rows d tgt v hv, hm,
      show ((0 : ℤ) - 1) = -1 by norm_num, ilocRow_neg_one rows hne]

/-- The demo row list is non-empty. -/
theorem rowsDemo_ne_nil : rowsDemo ≠ [] := by
  simp [rowsDemo, simulate_year]

/-- Witness for C10: a record with month 0 and two simulated rows is
silently paired with the last row. -/
theorem c10_positional_pairing_witness :
    extract_comparison_values rowsDemo [adMonthZero] CompTarget.total_kWh
      = .ok ([simValue (rowsDemo.getLast rowsDemo_ne_nil)
          CompTarget.total_kWh], [400]) :=
  (c10_positional_pairing rowsDemo CompTarget.total_kWh adMonthZero 400
    rfl).2.2 rfl rowsDemo_ne_nil

/-! ### Helper lemmas for load and energy signs (claim C3) -/

theorem latent_total_nonneg (E : ℚ → ℚ) (c : MonthlyCondition)
    (ho : 0 ≤ c.occupancy) : 0 ≤ (calculate_latent_load E c).total := by
  unfold calculate_latent_load
  refine add_nonneg ?_ (le_max_left 0 _)
  have : (0 : ℚ) ≤ (c.occupancy : ℚ) := by exact_mod_cast ho
  unfold PERSON_LATENT_HEAT
  positivity

theorem central_total_nonneg (es : EquipmentSpec) (s l : ℚ)
    (c : MonthlyCondition) (hfan : 0 ≤ es.central_ahu_fan_power)
    (hcop : 0 < es.central_chiller_cop) (hh : 0 ≤ c.operation_hours) :
    0 ≤ (calculate_central_system_energy es s l c).total := by
  unfold calculate_central_system_energy
  refine add_nonneg (mul_nonneg hfan hh) ?_
  by_cases hpos : s + l > 0
  · rw [if_pos hpos]
    exact div_nonneg (mul_nonneg hpos.le hh) hcop.le
  · rw [if_neg hpos]
    exact div_nonneg (mul_nonneg (abs_nonneg _) hh) hcop.le

theorem local_total_nonneg (es : EquipmentSpec) (s l : ℚ)
    (c : MonthlyCondition) (hfan : 0 ≤ es.local_ac_fan_power)
    (hcop : 0 < es.local_ac_cop) (hh : 0 ≤ c.operation_hours) :
    0 ≤ (calculate_local_system_energy es s l c).total := by
  unfold calculate_local_system_energy
  refine add_nonneg (mul_nonneg hfan hh) ?_
  by_cases hpos : s + l > 0
  · rw [if_pos hpos]
    exact div_nonneg (mul_nonneg hpos.le hh) hcop.le
  · rw [if_neg hpos]
    exact div_nonneg (mul_nonneg (abs_nonneg _) hh) hcop.le

/-! ### Claim C3: sign of loads and energies -/

/-- Claim C3 (refuted).  With every input inside the claimed physically
valid ranges (outdoor -30 °C, indoor 26 °C, humidities 80 % and 50 %, all
COPs positive), the January row of `simulate_year` has sensible load and
total load -83/5 kW < 0: load totals can be negative whenever conduction
losses exceed the internal and solar gains.  The condition has occupancy 0,
so neither value depends on the exponential stand-in. -/
theorem c3_negative_sensible_load :
    (simulate_year expStub fsDemo esDemo [condWinter]).map
        (fun r => (r.sensible_load_kW, r.total_load_kW)) = [(-83/5, -83/5)]
    ∧ ((-83/5 : ℚ) < 0) := by
  have hsens : (calculate_sensible_load fsDemo condWinter esDemo).total
      = -83/5 := by
    norm_num [calculate_sensible_load, solarRadiationMap, fsDemo, esDemo,
      condWinter, PERSON_SENSIBLE_HEAT]
  have hlat : (calculate_latent_load expStub condWinter).total = 0 := by
    norm_num [calculate_latent_load, outdoorLatentRaw, condWinter,
      PERSON_LATENT_HEAT, OUTSIDE_AIR_RATE]
  constructor
  · simp only [simulate_year, List.map_cons, List.map_nil]
    show [((calculate_sensible_load fsDemo condWinter esDemo).total,
        (calculate_sensible_load fsDemo condWinter esDemo).total
          + (calculate_latent_load expStub condWinter).total)] = _
    rw [hsens, hlat]
    norm_num
  · norm_num

/-- Claim C3 (amended, proved).  For physically valid inputs — non-negative
floor area, power densities, fan powers, occupancy, occupancy rate and
operation hours, and strictly positive COPs — every row of `simulate_year`
has a non-negative latent load and non-negative energy totals
(central, local, lighting, office equipment); the sensible and total load
totals are excluded, since they are negative whenever conduction losses
dominate (see the counterexample). -/
theorem c3_nonneg_energies (E : ℚ → ℚ) (fs : FloorSpec) (es : EquipmentSpec)
    (conds : List MonthlyCondition) (hfs : 0 ≤ fs.floor_area)
    (hes : NonnegEquip es) (hc : ∀ c ∈ conds, NonnegCond c) :
    ∀ r ∈ simulate_year E fs es conds,
      0 ≤ r.latent_load_kW ∧ 0 ≤ r.central_total_kWh
      ∧ 0 ≤ r.local_total_kWh ∧ 0 ≤ r.lighting_kWh
      ∧ 0 ≤ r.oa_equipment_kWh := by
  intro r hr
  rcases List.mem_map.mp hr with ⟨c, hcmem, rfl⟩
  obtain ⟨h1, h2, h3, h4, h5, h6⟩ := hes
  obtain ⟨ho, hor, hoh⟩ := hc c hcmem
  refine ⟨?_, ?_, ?_, ?_, ?_⟩
  · exact latent_total_nonneg E c ho
  · exact central_total_nonneg es _ _ c h3 h4 hoh
  · exact local_total_nonneg es _ _ c h5 h6 hoh
  · show 0 ≤ es.lighting_power_density * fs.floor_area * c.occupancy_rate *
        c.operation_hours / 1000
    positivity
  · show 0 ≤ es.oa_equipment_power_density * fs.floor_area *
        c.occupancy_rate * c.operation_hours / 1000
    positivity

/-- Witness for C3's amended statement at the demo inputs, specialised to
the one row the demo simulation produces. -/
theorem c3_nonneg_energies_witness :
    0 ≤ (simulateRow expStub fsDemo esDemo condDemo).latent_load_kW
    ∧ 0 ≤ (simulateRow expStub fsDemo esDemo condDemo).central_total_kWh
    ∧ 0 ≤ (simulateRow expStub fsDemo esDemo condDemo).local_total_kWh
    ∧ 0 ≤ (simulateRow expStub fsDemo esDemo condDemo).lighting_kWh
    ∧ 0 ≤ (simulateRow expStub fsDemo esDemo condDemo).oa_equipment_kWh :=
  c3_nonneg_energies expStub fsDemo esDemo [condDemo]
    (by norm_num [fsDemo]) (by norm_num [NonnegEquip, esDemo])
    (by
      intro c hcmem
      rw [List.mem_singleton] at hcmem
      subst hcmem
      norm_num [NonnegCond, condDemo])
    (simulateRow expStub fsDemo esDemo condDemo) (by simp [simulate_year])

/-! ### Helper lemmas for parameter application and grids (claims C1, C4) -/

theorem setFloorField_unknown (fs : FloorSpec) (f : String) (v : ℚ)
    (hf : f ∉ floorFieldNames) : setFloorField fs f v = fs := by
  simp only [floorFieldNames, List.mem_cons, List.not_mem_nil, or_false,
    not_or] at hf
  obtain ⟨h1, h2, h3, h4, h5, h6⟩ := hf
  rw [setFloorField, if_neg h1, if_neg h2, if_neg h3, if_neg h4, if_neg h5,
    if_neg h6]

theorem applyParam_wall (fs : FloorSpec) (es : EquipmentSpec) (w : ℚ) :
    applyParam fs es "floor_spec.wall_u_value" w
      = .ok ({ fs with wall_u_value := w }, es) := by
  have hsp : splitDot "floor_spec.wall_u_value"
      = ["floor_spec", "wall_u_value"] := by decide
  simp only [applyParam, hsp]
  simp [setFloorField]

theorem linspaceQ_length (a b : ℚ) (n : ℕ) : (linspaceQ a b n).length = n := by
  unfold linspaceQ
  by_cases h0 : n = 0
  · rw [if_pos h0, h0]
    rfl
  · rw [if_neg h0]
    by_cases h1 : n = 1
    · rw [if_pos h1, h1]
      rfl
    · rw [if_neg h1, List.length_map, List.length_range]

theorem gridValues_invalidRange : gridValues invalidRange = [5, 1] := by
  norm_num [gridValues, invalidRange, linspaceQ, List.range_succ]

theorem invalidRange_name :
    invalidRange.parameter_name = "floor_spec.wall_u_value" := rfl

theorem validRange_name :
    validRange.parameter_name = "floor_spec.wall_u_value" := rfl

theorem grid_search_eq (E S : ℚ → ℚ)
    (sampler : List (List ℚ) → ℕ → List (List ℚ)) (fs : FloorSpec)
    (es : EquipmentSpec) (conds : List MonthlyCondition)
    (ad : List ActualData) (tgt : CompTarget)
    (ranges : List ParameterRange) (maxC : ℕ) :
    grid_search_calibration E S sampler fs es conds ad tgt ranges maxC
      = match mapExcept
          (evalCombination E S fs es conds ad tgt
            (ranges.map fun r => r.parameter_name))
          (if maxC < (cartesianProduct (ranges.map gridValues)).length then
            sampler (cartesianProduct (ranges.map gridValues)) maxC
          else cartesianProduct (ranges.map gridValues)) with
        | .error e => .error e
        | .ok results => .ok (List.insertionSort rmseLE results) := rfl

theorem gridSearch_length (E S : ℚ → ℚ)
    (sampler : List (List ℚ) → ℕ → List (List ℚ)) (fs : FloorSpec)
    (es : EquipmentSpec) (conds : List MonthlyCondition)
    (ad : List ActualData) (tgt : CompTarget)
    (ranges : List ParameterRange) (maxC : ℕ) (rs : List CalResult)
    (h : mapExcept
        (evalCombination E S fs es conds ad tgt
          (ranges.map fun r => r.parameter_name))
        (if maxC < (cartesianProduct (ranges.map gridValues)).length then
          sampler (cartesianProduct (ranges.map gridValues)) maxC
        else cartesianProduct (ranges.map gridValues)) = .ok rs) :
    (grid_search_calibration E S sampler fs es conds ad tgt ranges
        maxC).toOption.map List.length = some rs.length := by
  rw [grid_search_eq, h]
  simp [Except.toOption, List.length_insertionSort]

theorem gridSearch_ok (E S : ℚ → ℚ)
    (sampler : List (List ℚ) → ℕ → List (List ℚ)) (fs : FloorSpec)
    (es : EquipmentSpec) (conds : List MonthlyCondition)
    (ad : List ActualData) (tgt : CompTarget)
    (ranges : List ParameterRange) (maxC : ℕ) (rs : List CalResult)
    (h : mapExcept
        (evalCombination E S fs es conds ad tgt
          (ranges.map fun r => r.parameter_name))
        (if maxC < (cartesianProduct (ranges.map gridValues)).length then
          sampler (cartesianProduct (ranges.map gridValues)) maxC
        else cartesianProduct (ranges.map gridValues)) = .ok rs) :
    (grid_search_calibration E S sampler fs es conds ad tgt ranges
        maxC).toOption = some (List.insertionSort rmseLE rs) := by
  rw [grid_search_eq, h]
  simp [Except.toOption]

theorem mapExcept_pair {α β : Type} (f : α → Except String β) (a b : α)
    (x y : β) (ha : f a = .ok x) (hb : f b = .ok y) :
    mapExcept f [a, b] = .ok [x, y] := by
  simp [mapExcept, ha, hb]

theorem except_exists_ok {β : Type} (e : Except String β)
    (h : e.isOk = true) : ∃ r, e = .ok r := by
  cases e with
  | error a => simp [Except.isOk, Except.toBool] at h
  | ok r => exact ⟨r, rfl⟩

/-! ### Claim C1: invalid parameter ranges are not rejected -/

/-- Claim C1 (refuted).  A `ParameterRange` with `min_value 5 > max_value 1`
is not rejected: grid search materialises its two candidate values `[5, 1]`
and runs one full simulation-and-scoring trial for each of them, returning
two results instead of failing before any simulation. -/
theorem c1_invalid_range_not_rejected :
    gridValues invalidRange = [5, 1]
    ∧ (grid_search_calibration expStub sqrtStub samplerStub fsDemo esDemo
        [condDemo] [adDemo] CompTarget.total_kWh [invalidRange]).toOption.map
          List.length = some 2 := by
  refine ⟨gridValues_invalidRange, ?_⟩
  have hcombos :
      (if 1000 < (cartesianProduct ([invalidRange].map gridValues)).length
        then samplerStub (cartesianProduct ([invalidRange].map gridValues))
          1000
        else cartesianProduct ([invalidRange].map gridValues))
        = [[5], [1]] := by
    simp [gridValues_invalidRange, cartesianProduct]
  have h5 : ∃ r, evalCombination expStub sqrtStub fsDemo esDemo [condDemo]
      [adDemo] CompTarget.total_kWh
      ([invalidRange].map fun r => r.parameter_name) [5] = .ok r := by
    refine except_exists_ok _ ?_
    simp [evalCombination, invalidRange_name, run_simulation_with_params,
      applyParameters, applyParam_wall, simulate_year,
      extract_comparison_values, targetValue, adDemo, ilocRow,
      calculate_metrics, filteredSim, filteredAct, keepMask, maskFilter,
      Except.isOk, Except.toBool]
  have h1' : ∃ r, evalCombination expStub sqrtStub fsDemo esDemo [condDemo]
      [adDemo] CompTarget.total_kWh
      ([invalidRange].map fun r => r.parameter_name) [1] = .ok r := by
    refine except_exists_ok _ ?_
    simp [evalCombination, invalidRange_name, run_simulation_with_params,
      applyParameters, applyParam_wall, simulate_year,
      extract_comparison_values, targetValue, adDemo, ilocRow,
      calculate_metrics, filteredSim, filteredAct, keepMask, maskFilter,
      Except.isOk, Except.toBool]
  obtain ⟨r1, hr1⟩ := h5
  obtain ⟨r2, hr2⟩ := h1'
  have hmap := mapExcept_pair _ _ _ _ _ hr1 hr2
  have hlen := gridSearch_length expStub sqrtStub samplerStub fsDemo esDemo
    [condDemo] [adDemo] CompTarget.total_kWh [invalidRange] 1000 [r1, r2]
    (by rw [hcombos]; exact hmap)
  rw [hlen]
  rfl

/-- Claim C1 (amended, proved).  The code performs no validation at all: a
range whose `min_value` exceeds its `max_value` still yields its declared
number of candidate values (so simulations do run with it), and a
`floor_spec.<field>` path naming a field that does not exist on `FloorSpec`
is applied silently as a no-op (`setattr` creates an unread attribute), so
the simulation runs with the unmodified spec instead of being rejected. -/
theorem c1_no_validation (fs : FloorSpec) (es : EquipmentSpec) (v : ℚ)
    (name f : String) (hsplit : splitDot name = ["floor_spec", f])
    (hf : f ∉ floorFieldNames) (mn mx : ℚ) (k : ℕ) (_hinv : mx < mn) :
    applyParam fs es name v = .ok (fs, es)
    ∧ (linspaceQ mn mx k).length = k := by
  constructor
  · simp only [applyParam, hsplit]
    rw [setFloorField_unknown fs f v hf]
  · exact linspaceQ_length mn mx k

/-- Witness for C1's amended statement: the path
`floor_spec.does_not_exist` is silently ignored, and the inverted range
`[5, 1]` still produces its three candidate values. -/
theorem c1_no_validation_witness :
    applyParam fsDemo esDemo "floor_spec.does_not_exist" 7
        = .ok (fsDemo, esDemo)
    ∧ (linspaceQ 5 1 3).length = 3 :=
  c1_no_validation fsDemo esDemo 7 "floor_spec.does_not_exist"
    "does_not_exist" (by decide) (by decide) 5 1 3 (by norm_num)

/-! ### Helper lemmas for grid-search counting (claim C4) -/

theorem cartesianProduct_single (g : List ℚ) :
    cartesianProduct [g] = g.map fun v => [v] := by
  induction g with
  | nil => rfl
  | cons a t ih =>
    simp only [cartesianProduct, List.map_cons, List.map_nil,
      List.flatten_cons, List.singleton_append] at ih ⊢
    rw [ih]

theorem mapExcept_ok_length {α β : Type} (f : α → Except String β)
    (l : List α) (r : List β) (h : mapExcept f l = .ok r) :
    r.length = l.length := by
  induction l generalizing r with
  | nil =>
    simp only [mapExcept, Except.ok.injEq] at h
    subst h
    rfl
  | cons x xs ih =>
    simp only [mapExcept] at h
    cases hf : f x with
    | error e =>
      simp only [hf] at h
      exact Except.noConfusion h
    | ok y =>
      simp only [hf] at h
      cases hm : mapExcept f xs with
      | error e =>
        simp only [hm] at h
        exact Except.noConfusion h
      | ok ys =>
        simp only [hm, Except.ok.injEq] at h
        subst h
        simp [ih ys hm]

/-! ### Claim C4: grid-search result count and ranking -/

/-- Claim C4 (confirmed).  A grid-search calibration over a single
`ParameterRange` with a declared step count at most 1000 (and no explicit
step) that completes returns exactly `num_steps` results, sorted ascending
by RMSE (pairwise, so the first result's RMSE is at most every other
one's) — for every exponential/square-root stand-in and every sampler. -/
theorem c4_grid_search_count_sorted (E S : ℚ → ℚ)
    (sampler : List (List ℚ) → ℕ → List (List ℚ)) (fs : FloorSpec)
    (es : EquipmentSpec) (conds : List MonthlyCondition)
    (actual_data : List ActualData) (tgt : CompTarget) (pr : ParameterRange)
    (hstep : pr.step = none) (hN : pr.num_steps ≤ 1000) :
    ∀ rs ∈ (grid_search_calibration E S sampler fs es conds actual_data tgt
        [pr] 1000).toOption,
      rs.length = pr.num_steps ∧ List.Pairwise rmseLE rs := by
  intro rs hrs
  have hg : (gridValues pr).length = pr.num_steps := by
    unfold gridValues
    rw [hstep]
    exact linspaceQ_length _ _ _
  have hlen : (cartesianProduct ([pr].map gridValues)).length
      = pr.num_steps := by
    simp only [List.map_cons, List.map_nil, cartesianProduct_single,
      List.length_map]
    exact hg
  have hif : (if 1000 < (cartesianProduct ([pr].map gridValues)).length then
      sampler (cartesianProduct ([pr].map gridValues)) 1000
    else cartesianProduct ([pr].map gridValues))
      = cartesianProduct ([pr].map gridValues) := by
    rw [hlen, if_neg (by omega)]
  rw [grid_search_eq, hif] at hrs
  cases hm : mapExcept (evalCombination E S fs es conds actual_data tgt
      ([pr].map fun r => r.parameter_name))
      (cartesianProduct ([pr].map gridValues)) with
  | error e =>
    rw [hm] at hrs
    simp [Except.toOption] at hrs
  | ok results =>
    rw [hm] at hrs
    simp only [Except.toOption, Option.mem_def, Option.some.injEq] at hrs
    subst hrs
    constructor
    · rw [List.length_insertionSort, mapExcept_ok_length _ _ _ hm, hlen]
    · exact List.sorted_insertionSort rmseLE results

/-- Witness for C4 at the valid demo range (2 steps, no explicit step): the
demo grid search completes with exactly 2 results, which are pairwise in
ascending RMSE order. -/
theorem c4_grid_search_count_sorted_witness :
    (grid_search_calibration expStub sqrtStub samplerStub fsDemo esDemo
        [condDemo] [adDemo] CompTarget.total_kWh [validRange]
        1000).toOption.map List.length = some 2
    ∧ (grid_search_calibration expStub sqrtStub samplerStub fsDemo esDemo
        [condDemo] [adDemo] CompTarget.total_kWh [validRange]
        1000).toOption.all
        (fun rs => decide (List.Pairwise rmseLE rs)) = true := by
  have hthm := c4_grid_search_count_sorted expStub sqrtStub samplerStub
    fsDemo esDemo [condDemo] [adDemo] CompTarget.total_kWh validRange rfl
    (by norm_num [validRange])
  have hvals : gridValues validRange = [1, 2] := by
    norm_num [gridValues, validRange, linspaceQ, List.range_succ]
  have hcombos :
      (if 1000 < (cartesianProduct ([validRange].map gridValues)).length
        then samplerStub (cartesianProduct ([validRange].map gridValues))
          1000
        else cartesianProduct ([validRange].map gridValues))
        = [[1], [2]] := by
    simp [hvals, cartesianProduct]
  have h1 : ∃ r, evalCombination expStub sqrtStub fsDemo esDemo [condDemo]
      [adDemo] CompTarget.total_kWh
      ([validRange].map fun r => r.parameter_name) [1] = .ok r := by
    refine except_exists_ok _ ?_
    simp [evalCombination, validRange_name, run_simulation_with_params,
      applyParameters, applyParam_wall, simulate_year,
      extract_comparison_values, targetValue, adDemo, ilocRow,
      calculate_metrics, filteredSim, filteredAct, keepMask, maskFilter,
      Except.isOk, Except.toBool]
  have h2 : ∃ r, evalCombination expStub sqrtStub fsDemo esDemo [condDemo]
      [adDemo] CompTarget.total_kWh
      ([validRange].map fun r => r.parameter_name) [2] = .ok r := by
    refine except_exists_ok _ ?_
    simp [evalCombination, validRange_name, run_simulation_with_params,
      applyParameters, applyParam_wall, simulate_year,
      extract_comparison_values, targetValue, adDemo, ilocRow,
      calculate_metrics, filteredSim, filteredAct, keepMask, maskFilter,
      Except.isOk, Except.toBool]
  obtain ⟨r1, hr1⟩ := h1
  obtain ⟨r2, hr2⟩ := h2
  have hok := gridSearch_ok expStub sqrtStub samplerStub fsDemo esDemo
    [condDemo] [adDemo] CompTarget.total_kWh [validRange] 1000 [r1, r2]
    (by rw [hcombos]; exact mapExcept_pair _ _ _ _ _ hr1 hr2)
  obtain ⟨hlen, hpair⟩ :=
    hthm (List.insertionSort rmseLE [r1, r2]) (Option.mem_def.mpr hok)
  constructor
  · rw [hok, Option.map_some', hlen]
    rfl
  · rw [hok]
    simp only [Option.all]
    exact decide_eq_true hpair

end HVACModel
